import Mathlib

/-!
Shallow embedding of the Lightsail CLI customizations
(`awscli/customizations/lightsail/__init__.py` and
`awscli/customizations/lightsail/decryptpassword.py`).

Response documents are JSON-like nested string maps. Library collaborators
(the filesystem, the `cryptography` backend, `os.path` expansion) are
abstracted as records of functions, since their code lives outside this
repository; the control flow of the two handlers is embedded faithfully.
-/

set_option autoImplicit false

/-- A parsed response document: a nested mapping with string leaves,
as the Python dict returned by botocore for this operation. -/
inductive Doc where
  | str : String → Doc
  | obj : List (String × Doc) → Doc

/-- Python dict lookup `d[k]` / `k in d` on an insertion-ordered dict,
modelled as an association list: first (only) binding for the key. -/
def dictLookup {α : Type} : List (String × α) → String → Option α
  | [], _ => none
  | (k, v) :: rest, key => if k = key then some v else dictLookup rest key

/-- Python dict assignment `d[k] = v`: replaces the value in place when the
key is present, appends a new binding otherwise. -/
def dictSet {α : Type} : List (String × α) → String → α → List (String × α)
  | [], key, v => [(key, v)]
  | (k, w) :: rest, key, v =>
      if k = key then (k, v) :: rest else (k, w) :: dictSet rest key v

/-- `jmespath.search` restricted to dotted identifier paths, which is the
only form the source uses: walk the keys, yielding `none` (Python `None`)
on a missing key or a non-mapping intermediate value. -/
def jsearch : List String → Doc → Option Doc
  | [], d => some d
  | k :: ks, Doc.obj fields =>
      match dictLookup fields k with
      | some v => jsearch ks v
      | none => none
  | _ :: _, Doc.str _ => none

/-- `botocore.utils.set_value_from_jmespath`: walk the dotted path, creating
empty dicts for missing intermediate keys, and assign the value at the last
key. `none` models the Python exceptions (empty expression, or indexing a
non-dict intermediate value with a string key). -/
def set_value_from_jmespath : Doc → List String → Doc → Option Doc
  | _, [], _ => none
  | Doc.obj fields, [k], v => some (Doc.obj (dictSet fields k v))
  | Doc.obj fields, k :: k2 :: ks, v =>
      (match dictLookup fields k with
       | some sub => set_value_from_jmespath sub (k2 :: ks) v
       | none => set_value_from_jmespath (Doc.obj []) (k2 :: ks) v).map
        (fun sub2 => Doc.obj (dictSet fields k sub2))
  | Doc.str _, _ :: _, _ => none

/-- Python falsiness of a document value (`not value`): the empty string and
the empty dict are falsy. -/
def docFalsy : Doc → Bool
  | Doc.str s => s = ""
  | Doc.obj l => l.isEmpty

/-- Python falsiness of a `jmespath.search` result: `None`, `""` and `{}`
are falsy. -/
def pyFalsy : Option Doc → Bool
  | none => true
  | some d => docFalsy d

/-- The local filesystem as seen by the code: `os.path.isfile`, and reading
a file's bytes (`open(path, 'rb').read()`), `none` meaning an `IOError`. -/
structure FileSystem where
  isFile : String → Bool
  readBytes : String → Option (List Nat)

/-- The `cryptography` library collaborators, each `none` on the library
raising: PEM private-key loading (no passphrase), standard base64 decoding,
PKCS#1 v1.5 decryption, and UTF-8 decoding of the plaintext bytes. The key
handle returned by the loader is opaque (a `Nat`). -/
structure CryptoBackend where
  load_pem_private_key : List Nat → Option Nat
  b64decode : String → Option (List Nat)
  decrypt : Nat → List Nat → Option (List Nat)
  utf8decode : List Nat → Option String

/-- `os.path.expandvars` and `os.path.expanduser`, abstracted. -/
structure PathEnv where
  expandvars : String → String
  expanduser : String → String

/-- The botocore session, opaque here: only its identity matters. -/
structure Session where
  sid : Nat
deriving DecidableEq

/-- The slice of the botocore operation model the code reads: the
hyphenized service id and the operation name (used for the event name). -/
structure OperationModel where
  serviceIdHyphenized : String
  opName : String
deriving DecidableEq

/-- The `PrivateKeyArgument` instance state: the constructor arguments the
code stores, plus `_key_path` (set by `add_to_params`) and `_required`. -/
structure PrivateKeyArgument where
  session : Session
  operationModel : OperationModel
  argName : String
  keyPath : Option String
  required : Bool
deriving DecidableEq

/-- `PrivateKeyArgument.__init__`: stores the session, operation model and
name; `_key_path = None`, `_required = False`. -/
def PrivateKeyArgument.init (session : Session) (op : OperationModel)
    (name : String) : PrivateKeyArgument :=
  { session := session, operationModel := op, argName := name,
    keyPath := none, required := false }

/-- The event name `'after-call.%s.%s' % (service_id.hyphenize(),
self._operation_model.name)`. -/
def afterCallEvent (op : OperationModel) : String :=
  "after-call." ++ op.serviceIdHyphenized ++ "." ++ op.opName

/-- The `ValueError` message raised by `add_to_params` on a bad path. -/
def badPathMsg : String :=
  "private-key should be a path to the local SSH private key file of the keypair used to create the instance."

/-- `PrivateKeyArgument.add_to_params`. The value is `none` when the flag
was not supplied. On success the result carries the updated argument state
and the event name registered on the session (`none` when nothing was
registered); `Except.error` models the raised `ValueError`. -/
def add_to_params (env : PathEnv) (fs : FileSystem)
    (arg : PrivateKeyArgument) (value : Option String) :
    Except String (PrivateKeyArgument × Option String) :=
  match value with
  | none => Except.ok (arg, none)
  | some v =>
    if v = "" then
      Except.ok (arg, none)
    else
      let path := env.expanduser (env.expandvars v)
      if fs.isFile path then
        Except.ok ({ arg with keyPath := some path },
                   some (afterCallEvent arg.operationModel))
      else
        Except.error badPathMsg

/-- The fixed ciphertext lookup path. -/
def ciphertextPath : List String := ["accessDetails", "passwordData", "ciphertext"]

/-- The fixed path the plaintext is written to. -/
def passwordPath : List String := ["accessDetails", "password"]

/-- The `ValueError` message raised by `_decrypt_password_data`. -/
def decryptFailMsg : String :=
  "Unable to decrypt password ciphertext using provided private key file."

/-- Outcome of the after-call handler: the response document after the call
(the Python code mutates it in place) and the raised error, if any. -/
structure HandlerResult where
  response : Doc
  error : Option String

/-- `b64decode` needs a string; a dict-valued ciphertext raises (caught by
the broad handler). -/
def docToString : Doc → Option String
  | Doc.str s => some s
  | Doc.obj _ => none

/-- The body of the `try` block up to the plaintext string: read the key
file, load the PEM private key, base64-decode the ciphertext, decrypt with
PKCS#1 v1.5, decode as UTF-8. `none` is any exception along the way. -/
def decryptPipeline (fs : FileSystem) (crypto : CryptoBackend)
    (keyPath : String) (ciphertext : Doc) : Option String :=
  match fs.readBytes keyPath with
  | none => none
  | some pkBytes =>
    match crypto.load_pem_private_key pkBytes with
    | none => none
    | some privateKey =>
      match docToString ciphertext with
      | none => none
      | some ct =>
        match crypto.b64decode ct with
        | none => none
        | some ctBytes =>
          match crypto.decrypt privateKey ctBytes with
          | none => none
          | some plainBytes => crypto.utf8decode plainBytes

/-- `PrivateKeyArgument._decrypt_password_data`: no-op when `_key_path` is
unset or the ciphertext is absent/falsy; otherwise run the decryption
pipeline and write the plaintext at `accessDetails.password`, flattening
any exception into the one generic `ValueError`. -/
def decrypt_password_data (fs : FileSystem) (crypto : CryptoBackend)
    (arg : PrivateKeyArgument) (parsed : Doc) : HandlerResult :=
  match arg.keyPath with
  | none => { response := parsed, error := none }
  | some kp =>
    match jsearch ciphertextPath parsed with
    | none => { response := parsed, error := none }
    | some value =>
      if docFalsy value then
        { response := parsed, error := none }
      else
        match decryptPipeline fs crypto kp value with
        | none => { response := parsed, error := some decryptFailMsg }
        | some plaintext =>
          match set_value_from_jmespath parsed passwordPath (Doc.str plaintext) with
          | some d => { response := d, error := none }
          | none => { response := parsed, error := some decryptFailMsg }

/-- Entries of the Lightsail command table. `pushContainerImage` is the
`PushContainerImage(session)` handler object; `other` stands for the
pre-existing entries built by the host. -/
inductive Command where
  | pushContainerImage (session : Session)
  | other (tag : Nat)
deriving DecidableEq

/-- Entries of the argument table for `get-instance-access-details`. -/
inductive CLIArgument where
  | privateKey (a : PrivateKeyArgument)
  | other (tag : Nat)
deriving DecidableEq

/-- `inject_commands`: `command_table['push-container-image'] =
PushContainerImage(session)`. -/
def inject_commands (command_table : List (String × Command))
    (session : Session) : List (String × Command) :=
  dictSet command_table "push-container-image" (Command.pushContainerImage session)

/-- `giad_add_private_key`: `argument_table['private-key'] =
PrivateKeyArgument(session, operation_model, 'private-key')`. -/
def giad_add_private_key (argument_table : List (String × CLIArgument))
    (operation_model : OperationModel) (session : Session) :
    List (String × CLIArgument) :=
  dictSet argument_table "private-key"
    (CLIArgument.privateKey (PrivateKeyArgument.init session operation_model "private-key"))

/-! Concrete fixtures used by the witness theorems. -/

/-- A filesystem with exactly one file, the demo key file. -/
def fsDemo : FileSystem :=
  { isFile := fun p => p = "/home/user/keys/id.pem",
    readBytes := fun p => if p = "/home/user/keys/id.pem" then some [1, 2, 3] else none }

/-- A filesystem on which every read raises. -/
def fsFailDemo : FileSystem :=
  { isFile := fun _ => true, readBytes := fun _ => none }

/-- A crypto backend that decrypts the demo ciphertext to the string `hi`. -/
def cryptoDemo : CryptoBackend :=
  { load_pem_private_key := fun bs => if bs = [1, 2, 3] then some 7 else none,
    b64decode := fun s => if s = "Q1Q=" then some [9, 9] else none,
    decrypt := fun k bs => if k = 7 ∧ bs = [9, 9] then some [104, 105] else none,
    utf8decode := fun bs => if bs = [104, 105] then some "hi" else none }

/-- Expansion maps under which `$HOME/keys/id.pem` expands (variables first,
then `~`) to the demo key path. -/
def envDemo : PathEnv :=
  { expandvars := fun s => if s = "$HOME/keys/id.pem" then "~/keys/id.pem" else s,
    expanduser := fun s => if s = "~/keys/id.pem" then "/home/user/keys/id.pem" else s }

def sessionDemo : Session := { sid := 0 }

def opDemo : OperationModel :=
  { serviceIdHyphenized := "lightsail", opName := "GetInstanceAccessDetails" }

/-- A private-key argument with the demo key path stored. -/
def argDemo : PrivateKeyArgument :=
  { PrivateKeyArgument.init sessionDemo opDemo "private-key" with
      keyPath := some "/home/user/keys/id.pem" }

/-- A response carrying the demo ciphertext and an unrelated sibling field. -/
def parsedDemo : Doc :=
  Doc.obj [("accessDetails",
    Doc.obj [("passwordData", Doc.obj [("ciphertext", Doc.str "Q1Q=")]),
             ("ipAddress", Doc.str "192.0.2.1")])]

/-- A response with no ciphertext field at all. -/
def parsedNoCt : Doc :=
  Doc.obj [("accessDetails", Doc.obj [("ipAddress", Doc.str "192.0.2.1")])]

/-! Helper lemmas about dict updates and the nested get/set paths. -/

theorem dictLookup_dictSet_self {α : Type} (l : List (String × α)) (k : String) (v : α) :
    dictLookup (dictSet l k v) k = some v := by
  induction l with
  | nil => simp [dictSet, dictLookup]
  | cons p rest ih =>
    obtain ⟨k1, v1⟩ := p
    by_cases h : k1 = k <;> simp [dictSet, dictLookup, h, ih]

theorem dictLookup_dictSet_ne {α : Type} (l : List (String × α)) (k k' : String)
    (v : α) (h : k' ≠ k) : dictLookup (dictSet l k v) k' = dictLookup l k' := by
  induction l with
  | nil => simp [dictSet, dictLookup, Ne.symm h]
  | cons p rest ih =>
    obtain ⟨k1, v1⟩ := p
    by_cases hk : k1 = k
    · subst hk
      simp [dictSet, dictLookup, Ne.symm h]
    · simp [dictSet, dictLookup, hk, ih]

theorem dictSet_of_not_mem {α : Type} (l : List (String × α)) (k : String) (v : α)
    (h : dictLookup l k = none) : dictSet l k v = l ++ [(k, v)] := by
  induction l with
  | nil => simp [dictSet]
  | cons p rest ih =>
    obtain ⟨k1, v1⟩ := p
    by_cases hk : k1 = k
    · simp [dictLookup, hk] at h
    · simp [dictSet, dictLookup, hk] at h ⊢
      exact ih h

/-- When the ciphertext path resolves in `parsed`, writing at
`accessDetails.password` succeeds and the written value is found there. -/
theorem set_password_of_ciphertext_found (parsed x v : Doc)
    (h : jsearch ciphertextPath parsed = some x) :
    ∃ d, set_value_from_jmespath parsed passwordPath v = some d ∧
      jsearch passwordPath d = some v := by
  cases parsed with
  | str s => simp [jsearch, ciphertextPath] at h
  | obj fields =>
    cases hl : dictLookup fields "accessDetails" with
    | none => simp [jsearch, ciphertextPath, hl] at h
    | some sub =>
      cases sub with
      | str s => simp [jsearch, ciphertextPath, hl] at h
      | obj asub =>
        refine ⟨Doc.obj (dictSet fields "accessDetails"
          (Doc.obj (dictSet asub "password" v))), ?_, ?_⟩
        · simp [set_value_from_jmespath, passwordPath, hl]
        · simp [jsearch, passwordPath, dictLookup_dictSet_self]

/-! Claim theorems. -/

/-- C1: when the ciphertext at `accessDetails.passwordData.ciphertext` is a
non-empty string that the supplied key's decryption pipeline (base64 decode,
PKCS#1 v1.5 decrypt, UTF-8 decode) maps back to the original plaintext, the
handler succeeds and writes exactly that plaintext string into the response
at `accessDetails.password`, in place. -/
theorem decrypt_password_roundtrip
    (fs : FileSystem) (crypto : CryptoBackend) (arg : PrivateKeyArgument)
    (parsed : Doc) (kp ct : String) (kb : List Nat) (key : Nat)
    (cb pb : List Nat) (pt : String)
    (hkp : arg.keyPath = some kp)
    (hct : jsearch ciphertextPath parsed = some (Doc.str ct))
    (hne : ct ≠ "")
    (hread : fs.readBytes kp = some kb)
    (hload : crypto.load_pem_private_key kb = some key)
    (hb64 : crypto.b64decode ct = some cb)
    (hdec : crypto.decrypt key cb = some pb)
    (hutf : crypto.utf8decode pb = some pt) :
    ∃ d, set_value_from_jmespath parsed passwordPath (Doc.str pt) = some d ∧
      decrypt_password_data fs crypto arg parsed = { response := d, error := none } ∧
      jsearch passwordPath d = some (Doc.str pt) := by
  obtain ⟨d, hset, hget⟩ :=
    set_password_of_ciphertext_found parsed (Doc.str ct) (Doc.str pt) hct
  refine ⟨d, hset, ?_, hget⟩
  have hpipe : decryptPipeline fs crypto kp (Doc.str ct) = some pt := by
    simp [decryptPipeline, hread, hload, docToString, hb64, hdec, hutf]
  have hfalsy : docFalsy (Doc.str ct) = false := by simp [docFalsy, hne]
  simp [decrypt_password_data, hkp, hct, hfalsy, hpipe, hset]

/-- C1 witness: concrete instantiation where `Q1Q=` decrypts to `hi`. -/
theorem decrypt_password_roundtrip_witness :
    ∃ d, set_value_from_jmespath parsedDemo passwordPath (Doc.str "hi") = some d ∧
      decrypt_password_data fsDemo cryptoDemo argDemo parsedDemo
        = { response := d, error := none } ∧
      jsearch passwordPath d = some (Doc.str "hi") :=
  decrypt_password_roundtrip fsDemo cryptoDemo argDemo parsedDemo
    "/home/user/keys/id.pem" "Q1Q=" [1, 2, 3] 7 [9, 9] [104, 105] "hi"
    rfl rfl (by decide) rfl rfl rfl rfl rfl

/-- Shared case analysis: every run of the handler either raises nothing,
or raises the one generic message with the response untouched. -/
theorem decrypt_password_data_cases (fs : FileSystem) (crypto : CryptoBackend)
    (arg : PrivateKeyArgument) (parsed : Doc) :
    (decrypt_password_data fs crypto arg parsed).error = none ∨
    decrypt_password_data fs crypto arg parsed
      = { response := parsed, error := some decryptFailMsg } := by
  cases hkp : arg.keyPath with
  | none => left; simp [decrypt_password_data, hkp]
  | some kp =>
    cases hs : jsearch ciphertextPath parsed with
    | none => left; simp [decrypt_password_data, hkp, hs]
    | some value =>
      by_cases hf : docFalsy value
      · left; simp [decrypt_password_data, hkp, hs, hf]
      · cases hp : decryptPipeline fs crypto kp value with
        | none => right; simp [decrypt_password_data, hkp, hs, hf, hp]
        | some pt =>
          cases hw : set_value_from_jmespath parsed passwordPath (Doc.str pt) with
          | none => right; simp [decrypt_password_data, hkp, hs, hf, hp, hw]
          | some d => left; simp [decrypt_password_data, hkp, hs, hf, hp, hw]

/-- Whenever the handler raises, the raised message is the one generic
message and the response document is untouched. -/
theorem decrypt_password_data_error_spec (fs : FileSystem) (crypto : CryptoBackend)
    (arg : PrivateKeyArgument) (parsed : Doc) (e : String)
    (h : (decrypt_password_data fs crypto arg parsed).error = some e) :
    e = decryptFailMsg ∧
      (decrypt_password_data fs crypto arg parsed).response = parsed := by
  cases decrypt_password_data_cases fs crypto arg parsed with
  | inl he => rw [he] at h; exact absurd h (by simp)
  | inr he =>
    rw [he] at h ⊢
    simp at h
    exact ⟨h.symm, rfl⟩

/-- C2: every failure inside the decryption handler (key-file read, PEM key
load, base64 decode, PKCS#1 v1.5 decrypt, UTF-8 decode, or the write) is
flattened to the single generic `ValueError` message. -/
theorem decrypt_error_single_message (fs : FileSystem) (crypto : CryptoBackend)
    (arg : PrivateKeyArgument) (parsed : Doc) (e : String)
    (h : (decrypt_password_data fs crypto arg parsed).error = some e) :
    e = decryptFailMsg :=
  (decrypt_password_data_error_spec fs crypto arg parsed e h).1

/-- C2 witness: an unreadable key file raises exactly the generic message. -/
theorem decrypt_error_single_message_witness :
    (decrypt_password_data fsFailDemo cryptoDemo argDemo parsedDemo).error
      = some decryptFailMsg ∧ decryptFailMsg = decryptFailMsg :=
  ⟨rfl, decrypt_error_single_message fsFailDemo cryptoDemo argDemo parsedDemo
    decryptFailMsg rfl⟩

/-- C9: when the decryption handler raises, the response document is exactly
the one it was handed: the write at `accessDetails.password` happens only
after the whole pipeline has succeeded. -/
theorem decrypt_error_response_unchanged (fs : FileSystem) (crypto : CryptoBackend)
    (arg : PrivateKeyArgument) (parsed : Doc) (e : String)
    (h : (decrypt_password_data fs crypto arg parsed).error = some e) :
    (decrypt_password_data fs crypto arg parsed).response = parsed :=
  (decrypt_password_data_error_spec fs crypto arg parsed e h).2

/-- C9 witness: the failing run above leaves the response untouched. -/
theorem decrypt_error_response_unchanged_witness :
    (decrypt_password_data fsFailDemo cryptoDemo argDemo parsedDemo).error
      = some decryptFailMsg ∧
    (decrypt_password_data fsFailDemo cryptoDemo argDemo parsedDemo).response
      = parsedDemo :=
  ⟨rfl, decrypt_error_response_unchanged fsFailDemo cryptoDemo argDemo parsedDemo
    decryptFailMsg rfl⟩

/-- C4 (contrapositive form of the invariant): if no key path is stored or
the ciphertext value at `accessDetails.passwordData.ciphertext` is
absent/falsy, nothing is written: the handler returns the response
unchanged and raises nothing. -/
theorem password_written_requires_key_and_ciphertext
    (fs : FileSystem) (crypto : CryptoBackend) (arg : PrivateKeyArgument)
    (parsed : Doc)
    (h : arg.keyPath = none ∨ pyFalsy (jsearch ciphertextPath parsed) = true) :
    decrypt_password_data fs crypto arg parsed
      = { response := parsed, error := none } := by
  cases h with
  | inl hk => simp [decrypt_password_data, hk]
  | inr hf =>
    cases hkp : arg.keyPath with
    | none => simp [decrypt_password_data, hkp]
    | some kp =>
      cases hs : jsearch ciphertextPath parsed with
      | none => simp [decrypt_password_data, hkp, hs]
      | some value =>
        rw [hs] at hf
        simp only [pyFalsy] at hf
        simp [decrypt_password_data, hkp, hs, hf]

/-- C4 witness: with no key path stored, the demo response passes through. -/
theorem password_written_requires_key_and_ciphertext_witness :
    ((PrivateKeyArgument.init sessionDemo opDemo "private-key").keyPath = none ∨
      pyFalsy (jsearch ciphertextPath parsedDemo) = true) ∧
    decrypt_password_data fsDemo cryptoDemo
      (PrivateKeyArgument.init sessionDemo opDemo "private-key") parsedDemo
      = { response := parsedDemo, error := none } :=
  ⟨Or.inl rfl, password_written_requires_key_and_ciphertext fsDemo cryptoDemo
    (PrivateKeyArgument.init sessionDemo opDemo "private-key") parsedDemo
    (Or.inl rfl)⟩

/-- C5: when the ciphertext is absent or the empty string, the handler is a
no-op: no error, response unchanged, and — since the conclusion holds for
every filesystem, including one on which every read fails — the key file is
never read. -/
theorem absent_ciphertext_noop (fs : FileSystem) (crypto : CryptoBackend)
    (arg : PrivateKeyArgument) (parsed : Doc)
    (h : jsearch ciphertextPath parsed = none ∨
      jsearch ciphertextPath parsed = some (Doc.str "")) :
    decrypt_password_data fs crypto arg parsed
      = { response := parsed, error := none } := by
  cases hkp : arg.keyPath with
  | none => simp [decrypt_password_data, hkp]
  | some kp =>
    cases h with
    | inl hs => simp [decrypt_password_data, hkp, hs]
    | inr hs => simp [decrypt_password_data, hkp, hs, docFalsy]

/-- C5 witness: a valid key file and a response without the ciphertext
field, on a filesystem where every read would fail. -/
theorem absent_ciphertext_noop_witness :
    (jsearch ciphertextPath parsedNoCt = none ∨
      jsearch ciphertextPath parsedNoCt = some (Doc.str "")) ∧
    decrypt_password_data fsFailDemo cryptoDemo argDemo parsedNoCt
      = { response := parsedNoCt, error := none } :=
  ⟨Or.inl rfl, absent_ciphertext_noop fsFailDemo cryptoDemo argDemo parsedNoCt
    (Or.inl rfl)⟩

/-- C3: a non-empty value whose expanded path is not an existing regular
file makes `add_to_params` raise the descriptive `ValueError` at
argument-parse time; the error result carries no stored key path and no
registered handler, and no request has been involved. -/
theorem bad_path_rejected (env : PathEnv) (fs : FileSystem)
    (arg : PrivateKeyArgument) (v : String)
    (hv : v ≠ "")
    (hnf : fs.isFile (env.expanduser (env.expandvars v)) = false) :
    add_to_params env fs arg (some v) = Except.error badPathMsg := by
  simp [add_to_params, hv, hnf]

/-- C3 witness: a path that exists nowhere on the demo filesystem. -/
theorem bad_path_rejected_witness :
    ("missing.pem" ≠ "" ∧
      fsDemo.isFile (envDemo.expanduser (envDemo.expandvars "missing.pem")) = false) ∧
    add_to_params envDemo fsDemo argDemo (some "missing.pem")
      = Except.error badPathMsg :=
  ⟨⟨by decide, rfl⟩, bad_path_rejected envDemo fsDemo argDemo "missing.pem"
    (by decide) rfl⟩

/-- C6: with the flag not supplied, `add_to_params` leaves the freshly
constructed argument unchanged (its key path is `none`) and registers no
event; and the handler on an argument with no key path returns every
response unchanged with no error. -/
theorem no_flag_no_mutation (env : PathEnv) (fs : FileSystem)
    (crypto : CryptoBackend) (parsed : Doc) (s : Session) (op : OperationModel) :
    add_to_params env fs (PrivateKeyArgument.init s op "private-key") none
      = Except.ok (PrivateKeyArgument.init s op "private-key", none) ∧
    (PrivateKeyArgument.init s op "private-key").keyPath = none ∧
    decrypt_password_data fs crypto (PrivateKeyArgument.init s op "private-key") parsed
      = { response := parsed, error := none } := by
  refine ⟨rfl, rfl, ?_⟩
  simp [decrypt_password_data, PrivateKeyArgument.init]

/-- C7: `add_to_params` expands environment variables first, then `~`, and
when the expanded path is a file it stores exactly that resolved path and
registers the after-call handler. -/
theorem path_expansion_order (env : PathEnv) (fs : FileSystem)
    (arg : PrivateKeyArgument) (v : String)
    (hv : v ≠ "")
    (hf : fs.isFile (env.expanduser (env.expandvars v)) = true) :
    add_to_params env fs arg (some v)
      = Except.ok ({ arg with keyPath := some (env.expanduser (env.expandvars v)) },
                   some (afterCallEvent arg.operationModel)) := by
  simp [add_to_params, hv, hf]

/-- C7 witness: `$HOME/keys/id.pem` expands (variables, then `~`) to the
demo key file, which exists, so the resolved path is stored. -/
theorem path_expansion_order_witness :
    ("$HOME/keys/id.pem" ≠ "" ∧
      fsDemo.isFile (envDemo.expanduser (envDemo.expandvars "$HOME/keys/id.pem")) = true) ∧
    add_to_params envDemo fsDemo (PrivateKeyArgument.init sessionDemo opDemo "private-key")
        (some "$HOME/keys/id.pem")
      = Except.ok ({ PrivateKeyArgument.init sessionDemo opDemo "private-key" with
                       keyPath := some (envDemo.expanduser (envDemo.expandvars "$HOME/keys/id.pem")) },
                   some (afterCallEvent (PrivateKeyArgument.init sessionDemo opDemo "private-key").operationModel)) :=
  ⟨⟨by decide, rfl⟩, path_expansion_order envDemo fsDemo
    (PrivateKeyArgument.init sessionDemo opDemo "private-key") "$HOME/keys/id.pem"
    (by decide) rfl⟩

/-- C10: the empty string supplied as the flag's value takes the falsiness
branch, exactly like no value: no path test on any filesystem, no error, no
stored path, no registration. -/
theorem empty_value_like_no_value (env : PathEnv) (fs : FileSystem)
    (arg : PrivateKeyArgument) :
    add_to_params env fs arg (some "") = add_to_params env fs arg none ∧
    add_to_params env fs arg (some "") = Except.ok (arg, none) := by
  constructor <;> simp [add_to_params]

/-- C8 counterexample: on a command table that already holds the key
`push-container-image`, `inject_commands` replaces that entry in place —
the table keeps its single entry (no new entry is inserted) and the
pre-existing entry is modified. -/
theorem inject_commands_existing_key_cex :
    inject_commands [("push-container-image", Command.other 0)] { sid := 0 }
      = [("push-container-image", Command.pushContainerImage { sid := 0 })] ∧
    ¬ ((inject_commands [("push-container-image", Command.other 0)] { sid := 0 }).length
        = [("push-container-image", Command.other 0)].length + 1) := by
  constructor
  · rfl
  · decide

/-- C8 amended: each handler sets exactly its own key — to the
`PushContainerImage(session)` handler, resp. a fresh optional
`PrivateKeyArgument` — leaves every other key's binding unchanged, and,
whenever its key is not already present, appends exactly one new entry
(the claim as stated fails only on a table that already holds the key,
where the entry is replaced in place instead). -/
theorem tables_single_insertion
    (command_table : List (String × Command))
    (argument_table : List (String × CLIArgument))
    (s : Session) (op : OperationModel) :
    dictLookup (inject_commands command_table s) "push-container-image"
      = some (Command.pushContainerImage s) ∧
    (∀ k, k ≠ "push-container-image" →
      dictLookup (inject_commands command_table s) k = dictLookup command_table k) ∧
    (dictLookup command_table "push-container-image" = none →
      inject_commands command_table s
        = command_table ++ [("push-container-image", Command.pushContainerImage s)]) ∧
    dictLookup (giad_add_private_key argument_table op s) "private-key"
      = some (CLIArgument.privateKey (PrivateKeyArgument.init s op "private-key")) ∧
    (∀ k, k ≠ "private-key" →
      dictLookup (giad_add_private_key argument_table op s) k
        = dictLookup argument_table k) ∧
    (dictLookup argument_table "private-key" = none →
      giad_add_private_key argument_table op s
        = argument_table ++ [("private-key",
            CLIArgument.privateKey (PrivateKeyArgument.init s op "private-key"))]) ∧
    (PrivateKeyArgument.init s op "private-key").required = false := by
  refine ⟨dictLookup_dictSet_self _ _ _,
    fun k hk => dictLookup_dictSet_ne _ _ _ _ hk,
    fun h => dictSet_of_not_mem _ _ _ h,
    dictLookup_dictSet_self _ _ _,
    fun k hk => dictLookup_dictSet_ne _ _ _ _ hk,
    fun h => dictSet_of_not_mem _ _ _ h, rfl⟩

/-- C8 witness: on concrete tables not containing the keys, each handler
appends exactly its one new entry. -/
theorem tables_single_insertion_witness :
    dictLookup [("stop-instance", Command.other 3)] "push-container-image" = none ∧
    inject_commands [("stop-instance", Command.other 3)] { sid := 5 }
      = [("stop-instance", Command.other 3)]
        ++ [("push-container-image", Command.pushContainerImage { sid := 5 })] :=
  ⟨by decide,
    (tables_single_insertion [("stop-instance", Command.other 3)] [] { sid := 5 }
      opDemo).2.2.1 (by decide)⟩
